import Mathlib

/-!
Verification of the Financial News Sentiment Analysis service.

This file is a shallow embedding of the decision logic of the repository:
the rule-based sentiment classifiers (`run_backend.py`, `backend.py`), the
news corpus and the per-ticker processing loop, the multi-ticker
aggregation pipeline (`NewsAPI.get_news`, `NewsAPI.export_data`,
`NewsAPI.get_sentiment_summary`) and the CSV export (`frontend.py`).

Modelling conventions:
* Timestamps are integers (seconds).  The canonical textual date form
  `%Y-%m-%d %H:%M:%S` used by the code is fixed-width and zero-padded, so
  it is strictly monotone in the timestamp; string comparison and sorting
  in the source coincide with the numeric order used here.
* A raw corpus date string is modelled as `Option ℤ`: `some t` stands for
  a well-formed date string denoting timestamp `t`; `none` stands for an
  unparseable string, on which `datetime.strptime` raises.
* Python floats are modelled as rationals; the literals `0.5`, `0.7`,
  `0.8`, `1.2` ... are exact decimal rationals.  For the keyword counts
  reachable here the float comparisons of the source agree with the exact
  rational comparisons.
* `random.random()` is modelled by an explicit stream `rng : ℕ → ℚ` of
  draws in `[0,1)`; every call of a classifier consumes exactly one draw.
  The apportionment of the global stream across independent per-ticker
  runs is immaterial to every property proved below, so each run receives
  its own stream.
* Python string methods `lower`, `upper`, `strip`, `split`, `join` are
  modelled by their Lean counterparts (ASCII behaviour, which is exact for
  every string occurring in the repository).
-/

/-- Result of a sentiment classification: a label and a confidence score
(`analyze_sentiment` in both backends returns this dict). -/
structure SentimentResult where
  sentiment : String
  score : ℚ
deriving DecidableEq

/-- Python `s.lower()` (ASCII: map each character to lower case; exact
for every string occurring in the repository). -/
def lowerStr (s : String) : String :=
  ⟨s.data.map Char.toLower⟩

/-- Python `s.upper()` (ASCII). -/
def upperStr (s : String) : String :=
  ⟨s.data.map Char.toUpper⟩

/-- `isPrefixL pat s`: `pat` is a prefix of `s` (character lists). -/
def isPrefixL : List Char → List Char → Bool
  | [], _ => true
  | _ :: _, [] => false
  | a :: as, b :: bs => a == b && isPrefixL as bs

/-- `containsSub pat s`: `pat` occurs as a contiguous substring of `s`;
this is Python's `pat in s` on strings. -/
def containsSub : List Char → List Char → Bool
  | pat, [] => isPrefixL pat []
  | pat, s@(_ :: rest) => isPrefixL pat s || containsSub pat rest

/-- Python `pat in text` (substring containment test on strings). -/
def strContains (text pat : String) : Bool :=
  containsSub pat.data text.data

/-- A word character in the sense of the regex class `\w`
(ASCII: letters, digits, underscore; every string in the repository is
ASCII). -/
def isWordChar (c : Char) : Bool :=
  c.isAlphanum || c == '_'

/-- Helper for `findWords`: splits a character list into the maximal runs
of word characters; `acc` holds the current run, reversed. -/
def wordRuns : List Char → List Char → List (List Char)
  | [], [] => []
  | [], acc@(_ :: _) => [acc.reverse]
  | c :: cs, acc =>
    if isWordChar c then
      wordRuns cs (c :: acc)
    else
      match acc with
      | [] => wordRuns cs []
      | _ :: _ => acc.reverse :: wordRuns cs []

/-- `re.findall(r'\b\w+\b', s)`: the maximal runs of word characters of
`s`, in order. -/
def findWords (s : String) : List String :=
  (wordRuns s.data []).map String.mk

namespace NewsAPI

/-- `positive_keywords` of `NewsAPI.analyze_sentiment` (run_backend.py
lines 27-31). -/
def positive_keywords : List String :=
  ["surge", "record", "exceeding", "strong", "grow", "growth", "breakthrough", "positive",
   "profit", "gains", "upgrade", "beat", "success", "innovation", "outperform", "bullish",
   "earnings", "upside", "rally", "recovery", "advantage", "rise", "improved", "expand"]

/-- `negative_keywords` of `NewsAPI.analyze_sentiment` (run_backend.py
lines 33-40). -/
def negative_keywords : List String :=
  ["downgrade", "concerns", "vulnerabilities", "issues", "challenges", "mount", "labor",
   "divided", "volatility", "fears", "recession", "plunge", "crash", "drop", "fall", "loss",
   "decline", "bearish", "disappointing", "missed", "lawsuit", "investigation", "problem",
   "risk", "struggle", "warn", "warning", "crisis", "cut", "debt", "layoff", "bankruptcy",
   "scandal", "fraud", "fine", "penalty", "default", "negative", "underperform", "slump",
   "downturn", "trouble", "failure", "weak", "poor"]

/-- `strong_negative_phrases` of `NewsAPI.analyze_sentiment`
(run_backend.py lines 43-49). -/
def strong_negative_phrases : List String :=
  ["stock plunges", "shares plunge", "stock plummets", "shares plummet", "stock crashes",
   "shares crash", "stock tanks", "shares tank", "stock collapses", "shares collapse",
   "disappointing results", "missed expectations", "shareholder lawsuit", "class action",
   "stock downgrade", "rating downgrade", "bankruptcy filing", "fraud allegations",
   "major losses", "financial troubles", "revenue miss"]

/-- The strong-negative-phrase scan of run_backend.py lines 52-55: the
loop returns on the first phrase with `phrase.lower() in text.lower()`;
since every hit produces the same branch this is equivalent to `any`. -/
def hasStrongNegativePhrase (text : String) : Bool :=
  strong_negative_phrases.any (fun phrase => strContains (lowerStr text) (lowerStr phrase))

/-- `positive_count` of run_backend.py lines 58-66: whole-word matches of
the tokenized lower-cased text against the (lower-cased) positive
keywords; every occurrence of a matching word counts. -/
def positive_count (text : String) : ℕ :=
  ((findWords (lowerStr text)).filter
    (fun word => (positive_keywords.map lowerStr).contains word)).length

/-- `negative_count` of run_backend.py lines 58-68. -/
def negative_count (text : String) : ℕ :=
  ((findWords (lowerStr text)).filter
    (fun word => (negative_keywords.map lowerStr).contains word)).length

/-- `NewsAPI.analyze_sentiment` (run_backend.py lines 24-85), the
canonical classifier of the spec (§4.1).  `u` is the single
`random.random()` draw consumed by the call. -/
def analyze_sentiment (u : ℚ) (text : String) : SentimentResult :=
  if hasStrongNegativePhrase text then
    ⟨"negative", 0.8 + u * 0.2⟩
  else
    let weighted_negative : ℚ := (negative_count text : ℚ) * 1.2
    if (positive_count text : ℚ) > weighted_negative then
      ⟨"positive", 0.7 + u * 0.3⟩
    else if weighted_negative > (positive_count text : ℚ) then
      ⟨"negative", 0.7 + u * 0.3⟩
    else
      ⟨"neutral", 0.5 + u * 0.4⟩

end NewsAPI

/-- A processed news record (`news_item` dict built by
`get_financial_news` in both backends; fields of `NewsItem.to_dict` in
backend.py).  `published_date` is the timestamp denoted by the stored
date string. -/
structure NewsItem where
  title : String
  publisher : String
  link : String
  published_date : ℤ
  ticker : String
  sentiment : String
  score : ℚ
deriving DecidableEq

/-- A raw corpus headline before processing.  `published_date` models the
formatted date string of the corpus entry: `some t` stands for a
well-formed `%Y-%m-%d %H:%M:%S` string denoting timestamp `t`, `none`
for an unparseable string. -/
structure RawItem where
  title : String
  publisher : String
  link : String
  published_date : Option ℤ
deriving DecidableEq

/-- `datetime.strptime(s, "%Y-%m-%d %H:%M:%S")`: succeeds exactly on
well-formed date strings, raises `ValueError` otherwise. -/
def strptime : Option ℤ → Except String ℤ
  | some t => Except.ok t
  | none => Except.error "time data does not match format"

/-- `common_news` (backend.py lines 96-121 = run_backend.py lines
111-136): four ticker-agnostic headlines dated 1-4 days before `now`. -/
def common_news (now : ℤ) : List RawItem :=
  [⟨"Markets reach record highs as tech stocks surge", "Financial Times",
    "https://example.com/markets-record-high", some (now - 1 * 86400)⟩,
   ⟨"Federal Reserve announces plans to maintain interest rates", "Wall Street Journal",
    "https://example.com/fed-rates", some (now - 2 * 86400)⟩,
   ⟨"Global recession fears grow as manufacturing slows", "Reuters",
    "https://example.com/recession-fears", some (now - 3 * 86400)⟩,
   ⟨"Inflation data shows signs of moderating, analysts say", "Bloomberg",
    "https://example.com/inflation-data", some (now - 4 * 86400)⟩]

/-- `ticker_news["AAPL"]` (backend.py lines 125-144). -/
def aapl_news (now : ℤ) (ticker : String) : List RawItem :=
  [⟨ticker ++ " reports record quarterly earnings, exceeding expectations", "CNBC",
    "https://example.com/" ++ lowerStr ticker ++ "-earnings",
    some (now - (1 * 86400 + 4 * 3600))⟩,
   ⟨"New " ++ ticker ++ " product line launches to strong demand", "TechCrunch",
    "https://example.com/" ++ lowerStr ticker ++ "-product-launch",
    some (now - (2 * 86400 + 6 * 3600))⟩,
   ⟨"Analyst downgrades " ++ ticker ++ " citing supply chain concerns", "Seeking Alpha",
    "https://example.com/" ++ lowerStr ticker ++ "-downgrade",
    some (now - (3 * 86400 + 8 * 3600))⟩]

/-- `ticker_news["MSFT"]` (backend.py lines 145-164). -/
def msft_news (now : ℤ) (ticker : String) : List RawItem :=
  [⟨ticker ++ " cloud services grow 40% year-over-year", "CNBC",
    "https://example.com/" ++ lowerStr ticker ++ "-cloud-growth",
    some (now - (1 * 86400 + 3 * 3600))⟩,
   ⟨ticker ++ " announces new AI partnerships with industry leaders", "TechCrunch",
    "https://example.com/" ++ lowerStr ticker ++ "-ai-partnerships",
    some (now - (2 * 86400 + 5 * 3600))⟩,
   ⟨"Security vulnerabilities discovered in " ++ ticker ++ " products", "ZDNet",
    "https://example.com/" ++ lowerStr ticker ++ "-security-issues",
    some (now - (3 * 86400 + 7 * 3600))⟩]

/-- `ticker_news["GOOGL"]` (backend.py lines 165-184). -/
def googl_news (now : ℤ) (ticker : String) : List RawItem :=
  [⟨ticker ++ " ad revenue exceeds projections in quarterly report", "CNBC",
    "https://example.com/" ++ lowerStr ticker ++ "-ad-revenue",
    some (now - (1 * 86400 + 2 * 3600))⟩,
   ⟨"Regulatory challenges mount for " ++ ticker ++ " in European markets", "Financial Times",
    "https://example.com/" ++ lowerStr ticker ++ "-eu-regulation",
    some (now - (2 * 86400 + 4 * 3600))⟩,
   ⟨ticker ++ " unveils new search algorithm with enhanced AI capabilities", "The Verge",
    "https://example.com/" ++ lowerStr ticker ++ "-search-ai",
    some (now - (3 * 86400 + 6 * 3600))⟩]

/-- `ticker_news["AMZN"]` (backend.py lines 185-204). -/
def amzn_news (now : ℤ) (ticker : String) : List RawItem :=
  [⟨ticker ++ " e-commerce sales surge during holiday season", "Reuters",
    "https://example.com/" ++ lowerStr ticker ++ "-holiday-sales",
    some (now - (1 * 86400 + 1 * 3600))⟩,
   ⟨ticker ++ " expands logistics network with new fulfillment centers", "Business Insider",
    "https://example.com/" ++ lowerStr ticker ++ "-logistics-expansion",
    some (now - (2 * 86400 + 3 * 3600))⟩,
   ⟨"Labor union pushes for worker rights at " ++ ticker ++ " warehouses", "Washington Post",
    "https://example.com/" ++ lowerStr ticker ++ "-labor-issues",
    some (now - (3 * 86400 + 5 * 3600))⟩]

/-- `ticker_news["TSLA"]` (backend.py lines 205-224). -/
def tsla_news (now : ℤ) (ticker : String) : List RawItem :=
  [⟨ticker ++ " production numbers hit new record in latest quarter", "Electrek",
    "https://example.com/" ++ lowerStr ticker ++ "-production-record",
    some (now - (1 * 86400 + 1 * 3600))⟩,
   ⟨ticker ++ " CEO announces new battery technology breakthrough", "CleanTechnica",
    "https://example.com/" ++ lowerStr ticker ++ "-battery-tech",
    some (now - (2 * 86400 + 2 * 3600))⟩,
   ⟨"Analysts divided on " ++ ticker ++ " stock valuation after recent volatility", "Barron\x27s",
    "https://example.com/" ++ lowerStr ticker ++ "-valuation-debate",
    some (now - (3 * 86400 + 3 * 3600))⟩]

/-- `default_ticker_news` (backend.py lines 228-247): generic headlines
for a ticker outside the demo set. -/
def default_ticker_news (now : ℤ) (ticker : String) : List RawItem :=
  [⟨ticker ++ " shares move on market trends", "Market Watch",
    "https://example.com/" ++ lowerStr ticker ++ "-shares",
    some (now - (1 * 86400 + 2 * 3600))⟩,
   ⟨"Analysts issue new price targets for " ++ ticker, "Seeking Alpha",
    "https://example.com/" ++ lowerStr ticker ++ "-price-targets",
    some (now - (2 * 86400 + 5 * 3600))⟩,
   ⟨ticker ++ " announces quarterly dividend", "Investor\x27s Business Daily",
    "https://example.com/" ++ lowerStr ticker ++ "-dividend",
    some (now - (3 * 86400 + 8 * 3600))⟩]

/-- `ticker_news.get(ticker, default_ticker_news)` (backend.py line
253 = run_backend.py line 268). -/
def ticker_specific_news (now : ℤ) (ticker : String) : List RawItem :=
  if ticker = "AAPL" then aapl_news now ticker
  else if ticker = "MSFT" then msft_news now ticker
  else if ticker = "GOOGL" then googl_news now ticker
  else if ticker = "AMZN" then amzn_news now ticker
  else if ticker = "TSLA" then tsla_news now ticker
  else default_ticker_news now ticker

/-- `all_news = common_news.copy(); all_news.extend(specific_news)`
(backend.py lines 250-254).  The corpus is identical in backend.py and
run_backend.py. -/
def all_news (now : ℤ) (ticker : String) : List RawItem :=
  common_news now ++ ticker_specific_news now ticker

/-- The per-item processing loop shared verbatim by the two
`get_financial_news` implementations (backend.py lines 257-288,
run_backend.py lines 272-302), parametrized by the classifier the file
uses: parse the date string (which may raise, aborting the loop), drop
items older than the cutoff, drop items with an empty (falsy) title,
classify the title and build the record.  `rng k` is the value of the
k-th `random.random()` call of this run; each classification consumes
exactly one draw. -/
def processItems (classify : ℚ → String → SentimentResult) (rng : ℕ → ℚ) (cutoff : ℤ)
    (ticker : String) : ℕ → List RawItem → Except String (List NewsItem)
  | _, [] => Except.ok []
  | k, item :: rest =>
    match strptime item.published_date with
    | Except.error e => Except.error e
    | Except.ok publish_date =>
      if publish_date < cutoff then
        processItems classify rng cutoff ticker k rest
      else if item.title = "" then
        processItems classify rng cutoff ticker k rest
      else
        match processItems classify rng cutoff ticker (k + 1) rest with
        | Except.error e => Except.error e
        | Except.ok tail =>
          Except.ok (⟨item.title, item.publisher, item.link, publish_date, ticker,
                      (classify (rng k) item.title).sentiment,
                      (classify (rng k) item.title).score⟩ :: tail)

/-- The `try ... except` wrapper of `get_financial_news` (backend.py
lines 86/290-292, run_backend.py lines 89/305-307): any error while
building one ticker's records yields the empty list instead of
propagating. -/
def processCaught (classify : ℚ → String → SentimentResult) (rng : ℕ → ℚ) (cutoff : ℤ)
    (ticker : String) (items : List RawItem) : List NewsItem :=
  match processItems classify rng cutoff ticker 0 items with
  | Except.ok l => l
  | Except.error _ => []

/-- Python whitespace characters removed by `str.strip()` (ASCII part). -/
def isSpaceChar (c : Char) : Bool :=
  c == ' ' || c == '\t' || c == '\n' || c == '\r' || c == '\x0b' || c == '\x0c'

/-- Python `s.strip()`: remove leading and trailing whitespace. -/
def stripStr (s : String) : String :=
  ⟨((s.data.dropWhile isSpaceChar).reverse.dropWhile isSpaceChar).reverse⟩

/-- Helper for `splitComma`; `acc` holds the current field, reversed. -/
def splitCommaAux : List Char → List Char → List String
  | [], acc => [⟨acc.reverse⟩]
  | c :: cs, acc =>
    if c == ',' then
      (⟨acc.reverse⟩ : String) :: splitCommaAux cs []
    else
      splitCommaAux cs (c :: acc)

/-- Python `s.split(",")`: split at every comma, keeping empty fields
(`"".split(",") == [""]`). -/
def splitComma (s : String) : List String :=
  splitCommaAux s.data []

/-- `[ticker.strip().upper() for ticker in tickers.split(",")]`
(run_backend.py line 311 and analogues). -/
def ticker_list (tickers : String) : List String :=
  (splitComma tickers).map (fun s => upperStr (stripStr s))

namespace NewsAPI

/-- `NewsAPI.get_financial_news` (run_backend.py lines 87-307).  The
attempted import of `backend.app.news_scraper` inside the `try` block
always fails - that module is not part of this repository - so the call
always runs the demo-data fallback: cutoff `now - timedelta(days=days)`,
the fixed corpus, the processing loop with `NewsAPI.analyze_sentiment`,
and the `except` clause returning `[]`. -/
def get_financial_news (rng : ℕ → ℚ) (now : ℤ) (ticker : String) (days : ℤ) : List NewsItem :=
  processCaught analyze_sentiment rng (now - days * 86400) ticker (all_news now ticker)

/-- The custom date-range filter of `NewsAPI.get_news` (run_backend.py
lines 327-371), applied only when a start or end date is supplied.
`start_date`/`end_date` are the midnight timestamps denoted by the
`%Y-%m-%d` request strings; the end bound is moved to 23:59:59 of its
day (`replace(hour=23, minute=59, second=59)`, i.e. `+ 86399`).  A kept
item must not be before `start_dt` and not after `end_dt`. -/
def dateFilter (start_date end_date : Option ℤ) (l : List NewsItem) : List NewsItem :=
  if start_date.isSome || end_date.isSome then
    l.filter (fun item =>
      (match start_date with
       | some start_dt => decide (start_dt ≤ item.published_date)
       | none => true) &&
      (match end_date with
       | some end_d => decide (item.published_date ≤ end_d + 86399)
       | none => true))
  else l

/-- Comparator of `sorted(all_news, key=..., reverse=True)`: newest
first.  Python's stable descending sort coincides with a stable merge
sort under this (total, transitive) comparator. -/
def newestFirst (a b : NewsItem) : Bool :=
  decide (b.published_date ≤ a.published_date)

/-- Comparator of `sorted(all_news, key=...)`: oldest first. -/
def oldestFirst (a b : NewsItem) : Bool :=
  decide (a.published_date ≤ b.published_date)

/-- `NewsAPI.get_news` (run_backend.py lines 309-374) up to but not
including the `max_results` truncation: normalize the tickers, gather
each ticker's records (the news-scraper import fails, so each ticker
uses `get_financial_news`), apply the optional date-range filter, sort
newest first. -/
def get_news_pool (rngOf : String → ℕ → ℚ) (now : ℤ) (tickers : String) (days : ℤ)
    (start_date end_date : Option ℤ) : List NewsItem :=
  (dateFilter start_date end_date
    ((ticker_list tickers).map (fun t => get_financial_news (rngOf t) now t days)).flatten).mergeSort
    newestFirst

/-- `NewsAPI.get_news` (run_backend.py lines 309-382).  The final step
truncates to `max_results` only when it is supplied and positive
(`if max_results and int(max_results) > 0`): `None` and `0` are falsy
and negative values fail the second test, so none of them truncate. -/
def get_news (rngOf : String → ℕ → ℚ) (now : ℤ) (tickers : String) (days : ℤ)
    (start_date end_date : Option ℤ) (max_results : Option ℤ) : List NewsItem :=
  match max_results with
  | some m =>
    if 0 < m then
      (get_news_pool rngOf now tickers days start_date end_date).take m.toNat
    else
      get_news_pool rngOf now tickers days start_date end_date
  | none => get_news_pool rngOf now tickers days start_date end_date

/-- `NewsAPI.export_data` (run_backend.py lines 431-443): fetch via
`get_news`, then re-sort in chronological order for export. -/
def export_data (rngOf : String → ℕ → ℚ) (now : ℤ) (tickers : String) (days : ℤ)
    (start_date end_date : Option ℤ) (max_results : Option ℤ) : List NewsItem :=
  (get_news rngOf now tickers days start_date end_date max_results).mergeSort oldestFirst

/-- The `sentiment_values` mapping (run_backend.py lines 412-416,
backend.py lines 358-362).  The source is a dict lookup that would raise
`KeyError` on any other label; the final catch-all `0` is unreachable
for classifier output, whose labels are always among the three keys. -/
def sentiment_values (s : String) : ℤ :=
  if s = "positive" then 1
  else if s = "neutral" then 0
  else if s = "negative" then -1
  else 0

/-- Per-ticker sentiment summary (the dict stored in `summary[ticker]`). -/
structure SentimentSummary where
  total_news : ℕ
  positive : ℕ
  negative : ℕ
  neutral : ℕ
  avg_sentiment_score : ℚ
deriving DecidableEq

/-- The per-ticker summary computation of `NewsAPI.get_sentiment_summary`
(run_backend.py lines 397-426, identical in backend.py lines 343-372):
the all-zero summary for an empty news list, otherwise label counts and
the average of the per-item sentiment values. -/
def summarize_one (news : List NewsItem) : SentimentSummary :=
  if news.isEmpty then
    ⟨0, 0, 0, 0, 0⟩
  else
    ⟨news.length,
     (news.filter (fun item => item.sentiment == "positive")).length,
     (news.filter (fun item => item.sentiment == "negative")).length,
     (news.filter (fun item => item.sentiment == "neutral")).length,
     (((news.map (fun item => sentiment_values item.sentiment)).sum : ℤ) : ℚ) / (news.length : ℚ)⟩

/-- `NewsAPI.get_sentiment_summary` (run_backend.py lines 384-429),
with the result dict as an association list in insertion order.  When a
date range is supplied each ticker's news comes from `get_news` (called
with the single ticker), otherwise from `get_financial_news`. -/
def get_sentiment_summary (rngOf : String → ℕ → ℚ) (now : ℤ) (tickers : String) (days : ℤ)
    (start_date end_date : Option ℤ) (max_results : Option ℤ) :
    List (String × SentimentSummary) :=
  (ticker_list tickers).map (fun t =>
    (t, summarize_one
          (if start_date.isSome || end_date.isSome then
            get_news rngOf now t days start_date end_date max_results
          else
            get_financial_news (rngOf t) now t days)))

end NewsAPI

/-- The per-ticker fan-out loop of `NewsAPI.get_news` (run_backend.py
lines 314-324), generalized over the per-ticker raw corpus `itemsOf` in
order to state the fault-isolation policy of the aggregator; with
`itemsOf := all_news now` and `classify := NewsAPI.analyze_sentiment`
this is exactly the loop of `get_news`. -/
def gatherNews (classify : ℚ → String → SentimentResult) (rngOf : String → ℕ → ℚ)
    (cutoff : ℤ) (itemsOf : String → List RawItem) (tickers : List String) : List NewsItem :=
  (tickers.map (fun t => processCaught classify (rngOf t) cutoff t (itemsOf t))).flatten

namespace Backend

/-- `positive_keywords` of `analyze_sentiment` (backend.py line 52). -/
def positive_keywords : List String :=
  ["surge", "record", "exceeding", "strong", "grow", "growth", "breakthrough", "positive"]

/-- `negative_keywords` of `analyze_sentiment` (backend.py line 53). -/
def negative_keywords : List String :=
  ["downgrade", "concerns", "vulnerabilities", "issues", "challenges", "mount", "labor",
   "divided", "volatility", "fears", "recession"]

/-- `analyze_sentiment` (backend.py lines 49-71), the simple historical
variant: plain substring keyword counts (`word.lower() in text.lower()`,
at most one count per keyword), no phrase override, no weighting. -/
def analyze_sentiment (u : ℚ) (text : String) : SentimentResult :=
  let positive_count :=
    (positive_keywords.filter (fun word => strContains (lowerStr text) (lowerStr word))).length
  let negative_count :=
    (negative_keywords.filter (fun word => strContains (lowerStr text) (lowerStr word))).length
  if positive_count > negative_count then
    ⟨"positive", 0.7 + u * 0.3⟩
  else if negative_count > positive_count then
    ⟨"negative", 0.7 + u * 0.3⟩
  else
    ⟨"neutral", 0.5 + u * 0.4⟩

/-- `get_financial_news` (backend.py lines 74-292).  `days=None` falls
back to 7, otherwise `search_days = max(1, days)`; `max_results` is
accepted and never used by the body. -/
def get_financial_news (rng : ℕ → ℚ) (now : ℤ) (ticker : String) (days : Option ℤ)
    (max_results : ℤ) : List NewsItem :=
  let search_days : ℤ := match days with
    | none => 7
    | some d => max 1 d
  processCaught analyze_sentiment rng (now - search_days * 86400) ticker (all_news now ticker)

end Backend

namespace Frontend

/-- The keys of a news-record dict in insertion order: `list(data[0].keys())`
in `convert_to_csv` (frontend.py line 74).  Every record produced by the
backend has exactly these keys in this order. -/
def csvHeaders : List String :=
  ["title", "publisher", "link", "published_date", "ticker", "sentiment", "score"]

/-- `str(item.get(header, ""))` (frontend.py line 80): the field of the
record named by `header`, coerced to text.  The numeric fields of the
embedding (`published_date`, `score`) are coerced with `toString`,
standing for the `str()` of the date string and of the float. -/
def csvField (item : NewsItem) (header : String) : String :=
  if header = "title" then item.title
  else if header = "publisher" then item.publisher
  else if header = "link" then item.link
  else if header = "published_date" then toString item.published_date
  else if header = "ticker" then item.ticker
  else if header = "sentiment" then item.sentiment
  else if header = "score" then toString item.score
  else ""

/-- Python `sep.join(l)`. -/
def joinWith (sep : String) : List String → String
  | [] => ""
  | [s] => s
  | s :: rest => s ++ sep ++ joinWith sep rest

/-- One data row of the CSV (frontend.py lines 80-81): the fields in
header order, comma-joined with no quoting or escaping, newline-
terminated. -/
def csvRow (item : NewsItem) : String :=
  joinWith "," (csvHeaders.map (csvField item)) ++ "\n"

/-- `convert_to_csv` (frontend.py lines 68-83 = run_frontend.py lines
211-227): empty input gives the empty string, otherwise the comma-joined
header line followed by one row per record, each line newline-terminated
(the `csv_content +=` loop is the fold).  The final `.encode('utf-8')`
is transparent here. -/
def convert_to_csv (data : List NewsItem) : String :=
  if data.isEmpty then ""
  else data.foldl (fun acc item => acc ++ csvRow item) (joinWith "," csvHeaders ++ "\n")

end Frontend

/-- A classification outcome of the guarded classifier of
`backend/app/sentiment.py`: label, score and an optional error marker
(the `"error"` key of the result dict). -/
structure SafeSentimentResult where
  sentiment : String
  score : ℚ
  error : Option String
deriving DecidableEq

/-- Modelled from the spec: the error guard of
`backend.app.sentiment.analyze_sentiment`.  The module
`backend/app/sentiment.py` is exercised by `src/tests/test_sentiment.py`
(`test_model_error_handling`) but is not itself under `src/`.  Per §7 of
the spec, any failure inside the classification step is caught and
substituted with the safe default (`neutral`, score `0.5`) plus an error
marker, and never propagates to the caller.  The fallible classification
step is modelled as an `Except` computation `body`. -/
def analyze_sentiment_guarded (body : Except String SentimentResult) : SafeSentimentResult :=
  match body with
  | Except.ok r => ⟨r.sentiment, r.score, none⟩
  | Except.error e => ⟨"neutral", 0.5, some e⟩

/-- C1: for every input string whose lower-cased form contains one of the
fixed strong-negative phrases as a substring, `classify` returns
`sentiment = "negative"` with `score = 0.8 + u * 0.2 ∈ [0.8, 1.0)`,
independently of the keyword counts (the result is fixed by the phrase
branch alone, so no keyword-counting step influences it), for any draw
`u ∈ [0,1)`. -/
theorem C1_strong_negative_phrase_override (text : String) (u : ℚ)
    (hu0 : 0 ≤ u) (hu1 : u < 1) (h : NewsAPI.hasStrongNegativePhrase text = true) :
    NewsAPI.analyze_sentiment u text = ⟨"negative", 0.8 + u * 0.2⟩ ∧
    (0.8 : ℚ) ≤ (NewsAPI.analyze_sentiment u text).score ∧
    (NewsAPI.analyze_sentiment u text).score < 1 := by
  have hres : NewsAPI.analyze_sentiment u text = ⟨"negative", 0.8 + u * 0.2⟩ := by
    simp [NewsAPI.analyze_sentiment, h]
  refine ⟨hres, ?_, ?_⟩ <;> rw [hres] <;> dsimp <;> linarith

/-- Witness for C1 at the spec's own example, which also contains the
positive keyword `earnings`. -/
theorem C1_strong_negative_phrase_override_witness :
    (0 : ℚ) ≤ 0.5 ∧ (0.5 : ℚ) < 1 ∧
    NewsAPI.hasStrongNegativePhrase "Shares plunge after earnings miss" = true ∧
    (NewsAPI.analyze_sentiment 0.5 "Shares plunge after earnings miss"
        = ⟨"negative", 0.8 + 0.5 * 0.2⟩ ∧
      (0.8 : ℚ) ≤ (NewsAPI.analyze_sentiment 0.5 "Shares plunge after earnings miss").score ∧
      (NewsAPI.analyze_sentiment 0.5 "Shares plunge after earnings miss").score < 1) :=
  ⟨by norm_num, by norm_num, by decide,
   C1_strong_negative_phrase_override "Shares plunge after earnings miss" 0.5
     (by norm_num) (by norm_num) (by decide)⟩

/-- C2: for every input without a strong-negative phrase the label is
decided by the weighted keyword comparison - `"positive"` iff
`positive_count > negative_count * 1.2`, `"negative"` iff
`negative_count * 1.2 > positive_count`, `"neutral"` exactly on ties -
and the empty string is classified `"neutral"` with score in
`[0.5, 0.9)`. -/
theorem C2_keyword_decision (text : String) (u : ℚ) (hu0 : 0 ≤ u) (hu1 : u < 1)
    (h : NewsAPI.hasStrongNegativePhrase text = false) :
    ((NewsAPI.analyze_sentiment u text).sentiment = "positive" ↔
      (NewsAPI.positive_count text : ℚ) > (NewsAPI.negative_count text : ℚ) * 1.2) ∧
    ((NewsAPI.analyze_sentiment u text).sentiment = "negative" ↔
      (NewsAPI.negative_count text : ℚ) * 1.2 > (NewsAPI.positive_count text : ℚ)) ∧
    ((NewsAPI.analyze_sentiment u text).sentiment = "neutral" ↔
      (NewsAPI.positive_count text : ℚ) = (NewsAPI.negative_count text : ℚ) * 1.2) ∧
    (NewsAPI.analyze_sentiment u "").sentiment = "neutral" ∧
    (0.5 : ℚ) ≤ (NewsAPI.analyze_sentiment u "").score ∧
    (NewsAPI.analyze_sentiment u "").score < 0.9 := by
  have hempty : NewsAPI.analyze_sentiment u "" = ⟨"neutral", 0.5 + u * 0.4⟩ := by
    have h1 : NewsAPI.hasStrongNegativePhrase "" = false := by decide
    have h2 : NewsAPI.positive_count "" = 0 := by decide
    have h3 : NewsAPI.negative_count "" = 0 := by decide
    norm_num [NewsAPI.analyze_sentiment, h1, h2, h3]
  have he1 : (NewsAPI.analyze_sentiment u "").sentiment = "neutral" := by rw [hempty]
  have he2 : (0.5 : ℚ) ≤ (NewsAPI.analyze_sentiment u "").score := by
    rw [hempty]; dsimp; linarith
  have he3 : (NewsAPI.analyze_sentiment u "").score < 0.9 := by
    rw [hempty]; dsimp; linarith
  rcases lt_trichotomy ((NewsAPI.positive_count text : ℚ))
      ((NewsAPI.negative_count text : ℚ) * 1.2) with h' | h' | h'
  · have hres : NewsAPI.analyze_sentiment u text = ⟨"negative", 0.7 + u * 0.3⟩ := by
      simp only [NewsAPI.analyze_sentiment, h, Bool.false_eq_true, if_false]
      rw [if_neg (not_lt.mpr h'.le), if_pos h']
    simp only [hres]
    exact ⟨iff_of_false (by decide) (not_lt.mpr h'.le),
           iff_of_true (by trivial) h',
           iff_of_false (by decide) (ne_of_lt h'),
           he1, he2, he3⟩
  · have hres : NewsAPI.analyze_sentiment u text = ⟨"neutral", 0.5 + u * 0.4⟩ := by
      simp only [NewsAPI.analyze_sentiment, h, Bool.false_eq_true, if_false]
      rw [if_neg (not_lt.mpr h'.le), if_neg (not_lt.mpr h'.ge)]
    simp only [hres]
    exact ⟨iff_of_false (by decide) (not_lt.mpr h'.le),
           iff_of_false (by decide) (not_lt.mpr h'.ge),
           iff_of_true (by trivial) h',
           he1, he2, he3⟩
  · have hres : NewsAPI.analyze_sentiment u text = ⟨"positive", 0.7 + u * 0.3⟩ := by
      simp only [NewsAPI.analyze_sentiment, h, Bool.false_eq_true, if_false]
      rw [if_pos h']
    simp only [hres]
    exact ⟨iff_of_true (by trivial) h',
           iff_of_false (by decide) (not_lt.mpr h'.le),
           iff_of_false (by decide) (ne_of_gt h'),
           he1, he2, he3⟩

/-- Witness for C2 at a phrase-free input. -/
theorem C2_keyword_decision_witness :
    (0 : ℚ) ≤ 0 ∧ (0 : ℚ) < 1 ∧
    NewsAPI.hasStrongNegativePhrase "hello world" = false ∧
    (((NewsAPI.analyze_sentiment 0 "hello world").sentiment = "positive" ↔
        (NewsAPI.positive_count "hello world" : ℚ)
          > (NewsAPI.negative_count "hello world" : ℚ) * 1.2) ∧
      ((NewsAPI.analyze_sentiment 0 "hello world").sentiment = "negative" ↔
        (NewsAPI.negative_count "hello world" : ℚ) * 1.2
          > (NewsAPI.positive_count "hello world" : ℚ)) ∧
      ((NewsAPI.analyze_sentiment 0 "hello world").sentiment = "neutral" ↔
        (NewsAPI.positive_count "hello world" : ℚ)
          = (NewsAPI.negative_count "hello world" : ℚ) * 1.2) ∧
      (NewsAPI.analyze_sentiment 0 "").sentiment = "neutral" ∧
      (0.5 : ℚ) ≤ (NewsAPI.analyze_sentiment 0 "").score ∧
      (NewsAPI.analyze_sentiment 0 "").score < 0.9) :=
  ⟨le_refl 0, by norm_num, by decide,
   C2_keyword_decision "hello world" 0 (le_refl 0) (by norm_num) (by decide)⟩

/-- C8: any failure raised inside the classification step is caught and
replaced by the safe default `sentiment = "neutral"`, `score = 0.5` with
the error marker attached; the guarded classifier is a total function
into `SafeSentimentResult`, so the error never propagates to the caller. -/
theorem C8_classifier_error_replaced_by_safe_default
    (body : Except String SentimentResult) (e : String) (h : body = Except.error e) :
    analyze_sentiment_guarded body = ⟨"neutral", 0.5, some e⟩ := by
  rw [h]
  rfl

/-- Witness for C8 at a concrete failing classification step. -/
theorem C8_classifier_error_replaced_by_safe_default_witness :
    (Except.error "Test exception" : Except String SentimentResult)
        = Except.error "Test exception" ∧
    analyze_sentiment_guarded (Except.error "Test exception")
        = ⟨"neutral", 0.5, some "Test exception"⟩ :=
  ⟨rfl, C8_classifier_error_replaced_by_safe_default
    (Except.error "Test exception") "Test exception" rfl⟩

/-- The processing loop never returns more records than raw items went
in: every iteration contributes at most one record. -/
theorem processItems_length_le (classify : ℚ → String → SentimentResult) (rng : ℕ → ℚ)
    (cutoff : ℤ) (ticker : String) :
    ∀ (k : ℕ) (items : List RawItem) (l : List NewsItem),
      processItems classify rng cutoff ticker k items = Except.ok l →
      l.length ≤ items.length := by
  intro k items
  induction items generalizing k with
  | nil =>
    intro l hl
    simp only [processItems] at hl
    cases hl
    simp
  | cons item rest ih =>
    intro l hl
    simp only [processItems] at hl
    match hd : strptime item.published_date with
    | Except.error e => rw [hd] at hl; cases hl
    | Except.ok publish_date =>
      rw [hd] at hl
      dsimp only at hl
      by_cases hc : publish_date < cutoff
      · rw [if_pos hc] at hl
        exact le_trans (ih k l hl) (Nat.le_succ _)
      · rw [if_neg hc] at hl
        by_cases ht : item.title = ""
        · rw [if_pos ht] at hl
          exact le_trans (ih k l hl) (Nat.le_succ _)
        · rw [if_neg ht] at hl
          match hr : processItems classify rng cutoff ticker (k + 1) rest with
          | Except.error e => rw [hr] at hl; cases hl
          | Except.ok tail =>
            rw [hr] at hl
            dsimp only at hl
            cases hl
            simpa using ih (k + 1) tail hr

/-- The corpus handed to the processing loop always has exactly 7 items:
4 common headlines plus 3 ticker-specific or generic ones. -/
theorem all_news_length (now : ℤ) (ticker : String) :
    (all_news now ticker).length = 7 := by
  unfold all_news ticker_specific_news
  split_ifs <;> rfl

/-- The caught processing run returns at most as many records as raw
items went in. -/
theorem processCaught_length_le (classify : ℚ → String → SentimentResult) (rng : ℕ → ℚ)
    (cutoff : ℤ) (ticker : String) (items : List RawItem) :
    (processCaught classify rng cutoff ticker items).length ≤ items.length := by
  unfold processCaught
  match hr : processItems classify rng cutoff ticker 0 items with
  | Except.ok l => exact processItems_length_le classify rng cutoff ticker 0 items l hr
  | Except.error e => simp

/-- C10: the `max_results` parameter of `backend.py`'s
`get_financial_news` is dead: under the same clock and random source any
two values produce identical record lists, and every per-ticker list has
at most 7 records (4 common plus 3 ticker-specific or generic
headlines), whatever limit the caller passes. -/
theorem C10_max_results_is_dead (rng : ℕ → ℚ) (now : ℤ) (ticker : String)
    (days : Option ℤ) (m₁ m₂ : ℤ) :
    Backend.get_financial_news rng now ticker days m₁
        = Backend.get_financial_news rng now ticker days m₂ ∧
    (Backend.get_financial_news rng now ticker days m₁).length ≤ 7 := by
  constructor
  · rfl
  · calc (Backend.get_financial_news rng now ticker days m₁).length
        ≤ (all_news now ticker).length :=
          processCaught_length_le Backend.analyze_sentiment rng _ ticker _
      _ = 7 := all_news_length now ticker

/-- C7: the per-ticker record-building step of the aggregator is fault
isolated: if processing one ticker's raw items fails, the `try/except`
wrapper makes that ticker contribute the empty list, and the aggregate
over any ticker list equals the aggregate in which the failing ticker's
corpus is simply empty - the other tickers' records are untouched.  The
aggregate itself is a total function into `List NewsItem`, so the
overall call never raises. -/
theorem C7_per_ticker_errors_isolated (classify : ℚ → String → SentimentResult)
    (rngOf : String → ℕ → ℚ) (cutoff : ℤ) (itemsOf : String → List RawItem)
    (tickers : List String) (t : String) (e : String)
    (h : processItems classify (rngOf t) cutoff t 0 (itemsOf t) = Except.error e) :
    processCaught classify (rngOf t) cutoff t (itemsOf t) = [] ∧
    gatherNews classify rngOf cutoff itemsOf tickers
      = gatherNews classify rngOf cutoff (fun s => if s = t then [] else itemsOf s) tickers := by
  have h0 : processCaught classify (rngOf t) cutoff t (itemsOf t) = [] := by
    unfold processCaught
    rw [h]
  refine ⟨h0, ?_⟩
  unfold gatherNews
  congr 1
  apply List.map_congr_left
  intro s _
  dsimp only
  by_cases hs : s = t
  · subst hs
    rw [if_pos rfl, h0]
    rfl
  · rw [if_neg hs]

/-- Witness for C7: a corpus whose only item has an unparseable date
string makes the per-ticker run fail; with `tickers = ["AAPL", "MSFT"]`
the failing ticker "AAPL" contributes nothing and "MSFT" is unaffected. -/
theorem C7_per_ticker_errors_isolated_witness :
    processItems NewsAPI.analyze_sentiment ((fun _ _ => (0 : ℚ)) "AAPL") 0 "AAPL" 0
        ((fun _ => [⟨"Bad item", "Nowhere", "https://example.com/bad", none⟩]) "AAPL")
      = Except.error "time data does not match format" ∧
    (processCaught NewsAPI.analyze_sentiment ((fun _ _ => (0 : ℚ)) "AAPL") 0 "AAPL"
        ((fun _ => [⟨"Bad item", "Nowhere", "https://example.com/bad", none⟩]) "AAPL") = [] ∧
      gatherNews NewsAPI.analyze_sentiment (fun _ _ => (0 : ℚ)) 0
          (fun _ => [⟨"Bad item", "Nowhere", "https://example.com/bad", none⟩])
          ["AAPL", "MSFT"]
        = gatherNews NewsAPI.analyze_sentiment (fun _ _ => (0 : ℚ)) 0
            (fun s => if s = "AAPL" then []
              else (fun _ => [⟨"Bad item", "Nowhere", "https://example.com/bad", none⟩]) s)
            ["AAPL", "MSFT"]) :=
  ⟨rfl, C7_per_ticker_errors_isolated NewsAPI.analyze_sentiment (fun _ _ => (0 : ℚ)) 0
    (fun _ => [⟨"Bad item", "Nowhere", "https://example.com/bad", none⟩])
    ["AAPL", "MSFT"] "AAPL" "time data does not match format" rfl⟩

/-- C3: with a positive `max_results` the aggregated listing is exactly
the first `max_results` records of the untruncated output (hence its
length is `min max_results (untruncated length)`: at most the limit, and
exactly the limit whenever more records are available), while
`max_results = 0` and an absent `max_results` perform no truncation at
all. -/
theorem C3_result_limit_truncation (rngOf : String → ℕ → ℚ) (now : ℤ) (tickers : String)
    (days : ℤ) (start_date end_date : Option ℤ) (m : ℤ) (hm : 0 < m) :
    NewsAPI.get_news rngOf now tickers days start_date end_date (some m)
      = (NewsAPI.get_news rngOf now tickers days start_date end_date none).take m.toNat ∧
    (NewsAPI.get_news rngOf now tickers days start_date end_date (some m)).length
      = min m.toNat
          (NewsAPI.get_news rngOf now tickers days start_date end_date none).length ∧
    NewsAPI.get_news rngOf now tickers days start_date end_date (some 0)
      = NewsAPI.get_news rngOf now tickers days start_date end_date none := by
  have h1 : NewsAPI.get_news rngOf now tickers days start_date end_date (some m)
      = (NewsAPI.get_news_pool rngOf now tickers days start_date end_date).take m.toNat := by
    simp only [NewsAPI.get_news, if_pos hm]
  have hnone : NewsAPI.get_news rngOf now tickers days start_date end_date none
      = NewsAPI.get_news_pool rngOf now tickers days start_date end_date := rfl
  refine ⟨by rw [h1, hnone], ?_, by simp [NewsAPI.get_news]⟩
  rw [h1, hnone, List.length_take]

/-- Witness for C3 at a concrete positive limit. -/
theorem C3_result_limit_truncation_witness :
    (0 : ℤ) < 3 ∧
    (NewsAPI.get_news (fun _ _ => (0 : ℚ)) 1000000000 "AAPL" 7 none none (some 3)
        = (NewsAPI.get_news (fun _ _ => (0 : ℚ)) 1000000000 "AAPL" 7 none none none).take
            (3 : ℤ).toNat ∧
      (NewsAPI.get_news (fun _ _ => (0 : ℚ)) 1000000000 "AAPL" 7 none none (some 3)).length
        = min (3 : ℤ).toNat
            (NewsAPI.get_news (fun _ _ => (0 : ℚ)) 1000000000 "AAPL" 7 none none none).length ∧
      NewsAPI.get_news (fun _ _ => (0 : ℚ)) 1000000000 "AAPL" 7 none none (some 0)
        = NewsAPI.get_news (fun _ _ => (0 : ℚ)) 1000000000 "AAPL" 7 none none none) :=
  ⟨by norm_num,
   C3_result_limit_truncation (fun _ _ => (0 : ℚ)) 1000000000 "AAPL" 7 none none 3
     (by norm_num)⟩

/-- C4: every listing aggregate is sorted newest first (non-increasing
`published_date`) and every export aggregate is sorted oldest first
(non-decreasing `published_date`). -/
theorem C4_sort_directions (rngOf : String → ℕ → ℚ) (now : ℤ) (tickers : String) (days : ℤ)
    (start_date end_date : Option ℤ) (max_results : Option ℤ) :
    (NewsAPI.get_news rngOf now tickers days start_date end_date max_results).Pairwise
      (fun a b => b.published_date ≤ a.published_date) ∧
    (NewsAPI.export_data rngOf now tickers days start_date end_date max_results).Pairwise
      (fun a b => a.published_date ≤ b.published_date) := by
  have htrans1 : ∀ (a b c : NewsItem),
      NewsAPI.newestFirst a b → NewsAPI.newestFirst b c → NewsAPI.newestFirst a c := by
    intro a b c hab hbc
    simp only [NewsAPI.newestFirst, decide_eq_true_eq] at *
    omega
  have htotal1 : ∀ (a b : NewsItem), NewsAPI.newestFirst a b || NewsAPI.newestFirst b a := by
    intro a b
    simpa [NewsAPI.newestFirst] using Int.le_total b.published_date a.published_date
  have htrans2 : ∀ (a b c : NewsItem),
      NewsAPI.oldestFirst a b → NewsAPI.oldestFirst b c → NewsAPI.oldestFirst a c := by
    intro a b c hab hbc
    simp only [NewsAPI.oldestFirst, decide_eq_true_eq] at *
    omega
  have htotal2 : ∀ (a b : NewsItem), NewsAPI.oldestFirst a b || NewsAPI.oldestFirst b a := by
    intro a b
    simpa [NewsAPI.oldestFirst] using Int.le_total a.published_date b.published_date
  have hpool : (NewsAPI.get_news_pool rngOf now tickers days start_date end_date).Pairwise
      (fun a b : NewsItem => b.published_date ≤ a.published_date) := by
    unfold NewsAPI.get_news_pool
    exact List.Pairwise.imp (fun hab => by
        simpa [NewsAPI.newestFirst] using hab)
      (List.sorted_mergeSort htrans1 htotal1 _)
  constructor
  · cases max_results with
    | none => exact hpool
    | some m =>
      by_cases hm : 0 < m
      · simp only [NewsAPI.get_news, if_pos hm]
        exact List.Pairwise.sublist (List.take_sublist _ _) hpool
      · simpa only [NewsAPI.get_news, if_neg hm] using hpool
  · unfold NewsAPI.export_data
    exact List.Pairwise.imp (fun hab => by
        simpa [NewsAPI.oldestFirst] using hab)
      (List.sorted_mergeSort htrans2 htotal2 _)

/-- Every record produced by the processing loop is dated on or after
the cutoff: items strictly older are skipped. -/
theorem processItems_date_bound (classify : ℚ → String → SentimentResult) (rng : ℕ → ℚ)
    (cutoff : ℤ) (ticker : String) :
    ∀ (k : ℕ) (items : List RawItem) (l : List NewsItem),
      processItems classify rng cutoff ticker k items = Except.ok l →
      ∀ r ∈ l, cutoff ≤ r.published_date := by
  intro k items
  induction items generalizing k with
  | nil =>
    intro l hl r hr
    simp only [processItems] at hl
    cases hl
    simp at hr
  | cons item rest ih =>
    intro l hl r hr
    simp only [processItems] at hl
    match hd : strptime item.published_date with
    | Except.error e => rw [hd] at hl; cases hl
    | Except.ok publish_date =>
      rw [hd] at hl
      dsimp only at hl
      by_cases hc : publish_date < cutoff
      · rw [if_pos hc] at hl
        exact ih k l hl r hr
      · rw [if_neg hc] at hl
        by_cases ht : item.title = ""
        · rw [if_pos ht] at hl
          exact ih k l hl r hr
        · rw [if_neg ht] at hl
          match hrr : processItems classify rng cutoff ticker (k + 1) rest with
          | Except.error e => rw [hrr] at hl; cases hl
          | Except.ok tail =>
            rw [hrr] at hl
            dsimp only at hl
            cases hl
            rcases List.mem_cons.mp hr with hr1 | hr2
            · subst hr1
              dsimp only
              omega
            · exact ih (k + 1) tail hrr r hr2

/-- Date bound carried through the `try/except` wrapper of
`NewsAPI.get_financial_news`. -/
theorem get_financial_news_date_bound (rng : ℕ → ℚ) (now : ℤ) (ticker : String) (days : ℤ)
    (r : NewsItem) (hr : r ∈ NewsAPI.get_financial_news rng now ticker days) :
    now - days * 86400 ≤ r.published_date := by
  unfold NewsAPI.get_financial_news processCaught at hr
  match hp : processItems NewsAPI.analyze_sentiment rng (now - days * 86400) ticker 0
      (all_news now ticker) with
  | Except.ok l =>
    rw [hp] at hr
    exact processItems_date_bound _ _ _ _ 0 _ l hp r hr
  | Except.error e =>
    rw [hp] at hr
    simp at hr

/-- C5: the aggregator never returns a record dated strictly before the
lookback cutoff `now - days·86400`, never returns a record before
`start_date` when one is given, and never returns a record after
23:59:59 of `end_date` (`end_date + 86399`) when one is given. -/
theorem C5_date_window_bounds (rngOf : String → ℕ → ℚ) (now : ℤ) (tickers : String)
    (days : ℤ) (start_date end_date : Option ℤ) (max_results : Option ℤ) (r : NewsItem)
    (hr : r ∈ NewsAPI.get_news rngOf now tickers days start_date end_date max_results) :
    now - days * 86400 ≤ r.published_date ∧
    (∀ s, start_date = some s → s ≤ r.published_date) ∧
    (∀ e, end_date = some e → r.published_date ≤ e + 86399) := by
  have hpool : r ∈ NewsAPI.get_news_pool rngOf now tickers days start_date end_date := by
    cases max_results with
    | none => exact hr
    | some m =>
      by_cases hm : 0 < m
      · rw [NewsAPI.get_news] at hr
        rw [if_pos hm] at hr
        exact List.take_subset _ _ hr
      · rw [NewsAPI.get_news] at hr
        rw [if_neg hm] at hr
        exact hr
  have hfil : r ∈ NewsAPI.dateFilter start_date end_date
      (((ticker_list tickers).map
        (fun t => NewsAPI.get_financial_news (rngOf t) now t days)).flatten) := by
    unfold NewsAPI.get_news_pool at hpool
    exact List.mem_mergeSort.mp hpool
  have hbase : r ∈ (((ticker_list tickers).map
        (fun t => NewsAPI.get_financial_news (rngOf t) now t days)).flatten) ∧
      (∀ s, start_date = some s → s ≤ r.published_date) ∧
      (∀ e, end_date = some e → r.published_date ≤ e + 86399) := by
    unfold NewsAPI.dateFilter at hfil
    by_cases hc : start_date.isSome || end_date.isSome
    · rw [if_pos hc] at hfil
      have hmem := List.mem_filter.mp hfil
      refine ⟨hmem.1, ?_, ?_⟩
      · intro s hs
        have hp := hmem.2
        rw [hs] at hp
        simp only [Bool.and_eq_true, decide_eq_true_eq] at hp
        exact hp.1
      · intro e he
        have hp := hmem.2
        rw [he] at hp
        simp only [Bool.and_eq_true, decide_eq_true_eq] at hp
        exact hp.2
    · rw [if_neg hc] at hfil
      refine ⟨hfil, ?_, ?_⟩
      · intro s hs
        rw [hs] at hc
        simp at hc
      · intro e he
        rw [he] at hc
        simp at hc
  have hcut : now - days * 86400 ≤ r.published_date := by
    rcases List.mem_flatten.mp hbase.1 with ⟨l, hl, hrl⟩
    rcases List.mem_map.mp hl with ⟨t, _, rfl⟩
    exact get_financial_news_date_bound (rngOf t) now t days r hrl
  exact ⟨hcut, hbase.2.1, hbase.2.2⟩

set_option maxRecDepth 100000 in
/-- Witness for C5: with a 1-day lookback from a concrete clock only the
newest common headline survives, and its record satisfies the window
bounds. -/
theorem C5_date_window_bounds_witness :
    ((⟨"Markets reach record highs as tech stocks surge", "Financial Times",
       "https://example.com/markets-record-high", 999913600, "AAPL", "positive", 0.7⟩ : NewsItem)
      ∈ NewsAPI.get_news (fun _ _ => (0 : ℚ)) 1000000000 "AAPL" 1 none none none) ∧
    ((1000000000 : ℤ) - 1 * 86400
        ≤ (⟨"Markets reach record highs as tech stocks surge", "Financial Times",
            "https://example.com/markets-record-high", 999913600, "AAPL", "positive",
            0.7⟩ : NewsItem).published_date ∧
      (∀ s, (none : Option ℤ) = some s
        → s ≤ (⟨"Markets reach record highs as tech stocks surge", "Financial Times",
            "https://example.com/markets-record-high", 999913600, "AAPL", "positive",
            0.7⟩ : NewsItem).published_date) ∧
      (∀ e, (none : Option ℤ) = some e
        → (⟨"Markets reach record highs as tech stocks surge", "Financial Times",
            "https://example.com/markets-record-high", 999913600, "AAPL", "positive",
            0.7⟩ : NewsItem).published_date ≤ e + 86399)) := by
  have hlist : NewsAPI.get_financial_news (fun _ => (0 : ℚ)) 1000000000 "AAPL" 1
      = [⟨"Markets reach record highs as tech stocks surge", "Financial Times",
          "https://example.com/markets-record-high", 999913600, "AAPL", "positive", 0.7⟩] := by
    with_unfolding_all rfl
  have hticker : ticker_list "AAPL" = ["AAPL"] := by decide
  have hr : (⟨"Markets reach record highs as tech stocks surge", "Financial Times",
      "https://example.com/markets-record-high", 999913600, "AAPL", "positive",
      0.7⟩ : NewsItem)
      ∈ NewsAPI.get_news (fun _ _ => (0 : ℚ)) 1000000000 "AAPL" 1 none none none := by
    show _ ∈ NewsAPI.get_news_pool (fun _ _ => (0 : ℚ)) 1000000000 "AAPL" 1 none none
    unfold NewsAPI.get_news_pool
    rw [List.mem_mergeSort, hticker]
    simp [NewsAPI.dateFilter, hlist]
  exact ⟨hr,
    C5_date_window_bounds (fun _ _ => (0 : ℚ)) 1000000000 "AAPL" 1 none none none _ hr⟩


/-- When every record carries one of the three labels, the three label
counts partition the list. -/
theorem filter_labels_length (news : List NewsItem)
    (h : ∀ r ∈ news, r.sentiment = "positive" ∨ r.sentiment = "negative"
      ∨ r.sentiment = "neutral") :
    (news.filter (fun item => item.sentiment == "positive")).length
      + (news.filter (fun item => item.sentiment == "negative")).length
      + (news.filter (fun item => item.sentiment == "neutral")).length
      = news.length := by
  induction news with
  | nil => rfl
  | cons a l ih =>
    have hl := ih (fun r hr => h r (List.mem_cons_of_mem a hr))
    rcases h a (List.mem_cons_self a l) with h1 | h1 | h1 <;>
      simp only [List.filter_cons, h1, List.length_cons] <;>
      simp +decide <;> omega

/-- The summed sentiment values equal positive count minus negative
count when every record carries one of the three labels. -/
theorem sum_sentiment_values (news : List NewsItem)
    (h : ∀ r ∈ news, r.sentiment = "positive" ∨ r.sentiment = "negative"
      ∨ r.sentiment = "neutral") :
    (news.map (fun item => NewsAPI.sentiment_values item.sentiment)).sum
      = ((news.filter (fun item => item.sentiment == "positive")).length : ℤ)
        - ((news.filter (fun item => item.sentiment == "negative")).length : ℤ) := by
  induction news with
  | nil => rfl
  | cons a l ih =>
    have hl := ih (fun r hr => h r (List.mem_cons_of_mem a hr))
    rcases h a (List.mem_cons_self a l) with h1 | h1 | h1 <;>
      rw [List.map_cons, List.sum_cons, hl, List.filter_cons, List.filter_cons] <;>
      simp only [h1, NewsAPI.sentiment_values] <;>
      simp +decide <;> omega

/-- C6: every per-ticker summary over classified records satisfies
`positive + negative + neutral = total_news`; when records exist the
average score is `(positive - negative) / total_news` and lies in
`[-1, 1]`; and a ticker with zero records gets the all-zero summary. -/
theorem C6_summary_invariants (news : List NewsItem)
    (h : ∀ r ∈ news, r.sentiment = "positive" ∨ r.sentiment = "negative"
      ∨ r.sentiment = "neutral") :
    ((NewsAPI.summarize_one news).positive + (NewsAPI.summarize_one news).negative
        + (NewsAPI.summarize_one news).neutral = (NewsAPI.summarize_one news).total_news) ∧
    (news ≠ [] →
      (NewsAPI.summarize_one news).avg_sentiment_score
          = (((NewsAPI.summarize_one news).positive : ℚ)
              - ((NewsAPI.summarize_one news).negative : ℚ))
            / ((NewsAPI.summarize_one news).total_news : ℚ) ∧
      -1 ≤ (NewsAPI.summarize_one news).avg_sentiment_score ∧
      (NewsAPI.summarize_one news).avg_sentiment_score ≤ 1) ∧
    NewsAPI.summarize_one [] = ⟨0, 0, 0, 0, 0⟩ := by
  by_cases hnil : news = []
  · subst hnil
    exact ⟨rfl, fun hc => absurd rfl hc, rfl⟩
  · have hne : news.isEmpty = false := by
      cases news
      · exact absurd rfl hnil
      · rfl
    have hs : NewsAPI.summarize_one news
        = ⟨news.length,
           (news.filter (fun item => item.sentiment == "positive")).length,
           (news.filter (fun item => item.sentiment == "negative")).length,
           (news.filter (fun item => item.sentiment == "neutral")).length,
           (((news.map (fun item => NewsAPI.sentiment_values item.sentiment)).sum : ℤ) : ℚ)
             / (news.length : ℚ)⟩ := by
      unfold NewsAPI.summarize_one
      rw [hne]
      rfl
    have hpos : 0 < news.length := List.length_pos.mpr hnil
    have hposq : (0 : ℚ) < (news.length : ℚ) := by exact_mod_cast hpos
    have hsum := sum_sentiment_values news h
    have hple := List.length_filter_le (fun item => item.sentiment == "positive") news
    have hnle := List.length_filter_le (fun item => item.sentiment == "negative") news
    have hpleq : ((news.filter (fun item => item.sentiment == "positive")).length : ℚ)
        ≤ (news.length : ℚ) := by exact_mod_cast hple
    have hnleq : ((news.filter (fun item => item.sentiment == "negative")).length : ℚ)
        ≤ (news.length : ℚ) := by exact_mod_cast hnle
    rw [hs]
    dsimp only
    refine ⟨filter_labels_length news h, fun _ => ⟨?_, ?_, ?_⟩, rfl⟩
    · rw [hsum]
      push_cast
      ring
    · rw [hsum, le_div_iff hposq]
      push_cast
      have : (0 : ℚ)
          ≤ ((news.filter (fun item => item.sentiment == "positive")).length : ℚ) := by
        positivity
      linarith
    · rw [hsum, div_le_one hposq]
      push_cast
      have : (0 : ℚ)
          ≤ ((news.filter (fun item => item.sentiment == "negative")).length : ℚ) := by
        positivity
      linarith

/-- Witness for C6 at a two-record list with mixed labels. -/
theorem C6_summary_invariants_witness :
    (∀ r ∈ ([⟨"A", "P", "L", 0, "T", "positive", 1⟩,
             ⟨"B", "P", "L", 1, "T", "neutral", 1⟩] : List NewsItem),
      r.sentiment = "positive" ∨ r.sentiment = "negative" ∨ r.sentiment = "neutral") ∧
    (((NewsAPI.summarize_one [⟨"A", "P", "L", 0, "T", "positive", 1⟩,
        ⟨"B", "P", "L", 1, "T", "neutral", 1⟩]).positive
        + (NewsAPI.summarize_one [⟨"A", "P", "L", 0, "T", "positive", 1⟩,
            ⟨"B", "P", "L", 1, "T", "neutral", 1⟩]).negative
        + (NewsAPI.summarize_one [⟨"A", "P", "L", 0, "T", "positive", 1⟩,
            ⟨"B", "P", "L", 1, "T", "neutral", 1⟩]).neutral
        = (NewsAPI.summarize_one [⟨"A", "P", "L", 0, "T", "positive", 1⟩,
            ⟨"B", "P", "L", 1, "T", "neutral", 1⟩]).total_news) ∧
      (([⟨"A", "P", "L", 0, "T", "positive", 1⟩,
          ⟨"B", "P", "L", 1, "T", "neutral", 1⟩] : List NewsItem) ≠ [] →
        (NewsAPI.summarize_one [⟨"A", "P", "L", 0, "T", "positive", 1⟩,
            ⟨"B", "P", "L", 1, "T", "neutral", 1⟩]).avg_sentiment_score
            = (((NewsAPI.summarize_one [⟨"A", "P", "L", 0, "T", "positive", 1⟩,
                  ⟨"B", "P", "L", 1, "T", "neutral", 1⟩]).positive : ℚ)
                - ((NewsAPI.summarize_one [⟨"A", "P", "L", 0, "T", "positive", 1⟩,
                    ⟨"B", "P", "L", 1, "T", "neutral", 1⟩]).negative : ℚ))
              / ((NewsAPI.summarize_one [⟨"A", "P", "L", 0, "T", "positive", 1⟩,
                  ⟨"B", "P", "L", 1, "T", "neutral", 1⟩]).total_news : ℚ) ∧
        -1 ≤ (NewsAPI.summarize_one [⟨"A", "P", "L", 0, "T", "positive", 1⟩,
            ⟨"B", "P", "L", 1, "T", "neutral", 1⟩]).avg_sentiment_score ∧
        (NewsAPI.summarize_one [⟨"A", "P", "L", 0, "T", "positive", 1⟩,
            ⟨"B", "P", "L", 1, "T", "neutral", 1⟩]).avg_sentiment_score ≤ 1) ∧
      NewsAPI.summarize_one [] = ⟨0, 0, 0, 0, 0⟩) :=
  ⟨by decide,
   C6_summary_invariants
     [⟨"A", "P", "L", 0, "T", "positive", 1⟩, ⟨"B", "P", "L", 1, "T", "neutral", 1⟩]
     (by decide)⟩

/-- `String.join` distributes over cons. -/
theorem join_cons_str (x : String) (xs : List String) :
    String.join (x :: xs) = x ++ String.join xs :=
  String.ext (by simp)

/-- A comma-join of newline-free strings is newline-free. -/
theorem joinWith_comma_no_newline (l : List String) (h : ∀ s ∈ l, '\n' ∉ s.data) :
    '\n' ∉ (Frontend.joinWith "," l).data := by
  induction l with
  | nil =>
    intro hc
    simp [Frontend.joinWith] at hc
  | cons s rest ih =>
    cases rest with
    | nil =>
      simpa [Frontend.joinWith] using h s (List.mem_cons_self s [])
    | cons r rs =>
      have hs := h s (List.mem_cons_self s (r :: rs))
      have hrest := ih (fun x hx => h x (List.mem_cons_of_mem s hx))
      intro hc
      simp only [Frontend.joinWith, String.data_append, List.mem_append] at hc
      rcases hc with (h1 | h2) | h3
      · exact hs h1
      · exact absurd h2 (by decide)
      · exact hrest h3

/-- A CSV data row over newline-free field texts contains exactly the
one terminating newline. -/
theorem csvRow_newline_count (r : NewsItem)
    (h : ∀ f ∈ Frontend.csvHeaders.map (Frontend.csvField r), '\n' ∉ f.data) :
    (Frontend.csvRow r).data.count '\n' = 1 := by
  unfold Frontend.csvRow
  rw [String.data_append, List.count_append]
  rw [List.count_eq_zero.mpr (joinWith_comma_no_newline _ h)]
  rfl

/-- The row-appending loop of `convert_to_csv` is the concatenation of
the rows after the initial header line. -/
theorem csv_foldl_eq (data : List NewsItem) (init : String) :
    data.foldl (fun acc item => acc ++ Frontend.csvRow item) init
      = init ++ String.join (data.map Frontend.csvRow) := by
  induction data generalizing init with
  | nil => simp [String.join]
  | cons a l ih =>
    rw [List.foldl_cons, ih, List.map_cons, join_cons_str, String.append_assoc]

/-- Concatenated rows over newline-free fields hold one newline per
record. -/
theorem join_rows_newline_count (data : List NewsItem)
    (h : ∀ r ∈ data, ∀ f ∈ Frontend.csvHeaders.map (Frontend.csvField r), '\n' ∉ f.data) :
    (String.join (data.map Frontend.csvRow)).data.count '\n' = data.length := by
  induction data with
  | nil => rfl
  | cons a l ih =>
    rw [List.map_cons, join_cons_str, String.data_append, List.count_append,
      csvRow_newline_count a (h a (List.mem_cons_self a l)),
      ih (fun r hr => h r (List.mem_cons_of_mem a hr)), List.length_cons]
    omega

/-- C9: for a non-empty record list (with newline-free field texts, as
produced by the backend) the CSV output is exactly the comma-joined
header line followed by one comma-joined row per record, each line
newline-terminated, so it contains exactly `n + 1` newlines for `n`
records; fields are embedded verbatim with no quoting or escaping, so
each row starts with the raw `title` followed by a comma even when the
title itself contains commas. -/
theorem C9_csv_header_and_rows (data : List NewsItem) (h1 : data ≠ [])
    (h2 : ∀ r ∈ data, ∀ f ∈ Frontend.csvHeaders.map (Frontend.csvField r), '\n' ∉ f.data) :
    Frontend.convert_to_csv data
      = Frontend.joinWith "," Frontend.csvHeaders ++ "\n"
        ++ String.join (data.map Frontend.csvRow) ∧
    (Frontend.convert_to_csv data).data.count '\n' = data.length + 1 ∧
    ∀ r ∈ data, ∃ rest : String, Frontend.csvRow r = r.title ++ "," ++ rest := by
  have hne : data.isEmpty = false := by
    cases data
    · exact absurd rfl h1
    · rfl
  have hstruct : Frontend.convert_to_csv data
      = Frontend.joinWith "," Frontend.csvHeaders ++ "\n"
        ++ String.join (data.map Frontend.csvRow) := by
    unfold Frontend.convert_to_csv
    rw [hne]
    simp only [Bool.false_eq_true, if_false]
    rw [csv_foldl_eq data _, String.append_assoc]
  refine ⟨hstruct, ?_, ?_⟩
  · rw [hstruct, String.data_append, String.data_append, List.count_append, List.count_append]
    have hhead : '\n' ∉ (Frontend.joinWith "," Frontend.csvHeaders).data :=
      joinWith_comma_no_newline Frontend.csvHeaders (by decide)
    rw [List.count_eq_zero.mpr hhead, join_rows_newline_count data h2]
    have hn1 : List.count '\n' "\n".data = 1 := by decide
    omega
  · intro r _
    refine ⟨Frontend.joinWith ","
        [Frontend.csvField r "publisher", Frontend.csvField r "link",
         Frontend.csvField r "published_date", Frontend.csvField r "ticker",
         Frontend.csvField r "sentiment", Frontend.csvField r "score"] ++ "\n", ?_⟩
    show (Frontend.csvField r "title" ++ ","
        ++ Frontend.joinWith ","
            [Frontend.csvField r "publisher", Frontend.csvField r "link",
             Frontend.csvField r "published_date", Frontend.csvField r "ticker",
             Frontend.csvField r "sentiment", Frontend.csvField r "score"]) ++ "\n"
      = r.title ++ ","
        ++ (Frontend.joinWith ","
              [Frontend.csvField r "publisher", Frontend.csvField r "link",
               Frontend.csvField r "published_date", Frontend.csvField r "ticker",
               Frontend.csvField r "sentiment", Frontend.csvField r "score"] ++ "\n")
    rw [String.append_assoc]
    rfl

/-- Witness for C9 at a single record whose title itself contains a
comma. -/
theorem C9_csv_header_and_rows_witness :
    (([⟨"A,B", "Pub", "Link", 0, "T", "positive", 1⟩] : List NewsItem) ≠ []) ∧
    (∀ r ∈ ([⟨"A,B", "Pub", "Link", 0, "T", "positive", 1⟩] : List NewsItem),
      ∀ f ∈ Frontend.csvHeaders.map (Frontend.csvField r), '\n' ∉ f.data) ∧
    (Frontend.convert_to_csv [⟨"A,B", "Pub", "Link", 0, "T", "positive", 1⟩]
        = Frontend.joinWith "," Frontend.csvHeaders ++ "\n"
          ++ String.join
              (([⟨"A,B", "Pub", "Link", 0, "T", "positive", 1⟩] : List NewsItem).map
                Frontend.csvRow) ∧
      (Frontend.convert_to_csv
          [⟨"A,B", "Pub", "Link", 0, "T", "positive", 1⟩]).data.count '\n'
        = ([⟨"A,B", "Pub", "Link", 0, "T", "positive", 1⟩] : List NewsItem).length + 1 ∧
      ∀ r ∈ ([⟨"A,B", "Pub", "Link", 0, "T", "positive", 1⟩] : List NewsItem),
        ∃ rest : String, Frontend.csvRow r = r.title ++ "," ++ rest) :=
  ⟨by decide, by decide,
   C9_csv_header_and_rows [⟨"A,B", "Pub", "Link", 0, "T", "positive", 1⟩]
     (by decide) (by decide)⟩
